import Mathlib

/-!
Shallow embedding of the sandbox orchestration core of the `compute`
repository, together with theorems settling the specification claims.

External effects (Docker/containerd engine calls, git, the filesystem) are
modelled by explicit environments recording which call fails, and every
operation additionally returns the list of external calls it attempted, in
order, so that ordering/abort claims can be stated as facts about traces.
-/

namespace Compute

/-- The error outcomes the core can surface.  The JS code throws `Error`
objects with message strings (and, at the tRPC layer, `TRPCError` with a
`NOT_FOUND` code); we model each distinct throw site as a constructor,
with `external` standing for a propagated failure of an engine / git /
filesystem call. -/
inductive CErr where
  | notFoundRun (id : String)
  | notFoundExec (id : String)
  | portNotPublished (port : Nat)
  | missingCmd
  | unsupportedRuntime (runtime : String)
  | external (step : String)
deriving DecidableEq, Repr

/-- External calls attempted by the core, recorded as a trace. -/
inductive Event where
  | mkTempDir
  | cloneRepo
  | checkoutRef
  | imageInspect (ref : String)
  | imagePull (ref : String)
  | containerCreate
  | containerStart
  | containerInspect
  | registerRun (id : String)
  | containerStop
  | containerRemove
  | rmTempDir
  | containerExec
  | execStart
  | execInspect
deriving DecidableEq, Repr

/-- Association-list model of the JS `Record<number, number>` port map
(container port → host port); keys are unique by construction of
`setPort`. -/
def lookupPort (m : List (Nat × Nat)) (p : Nat) : Option Nat :=
  (m.find? (fun kv => kv.1 == p)).map (fun kv => kv.2)

/-- `portMap[k] = v` on the association-list model: overwrite the binding
for `k` if present, append otherwise (JS object assignment). -/
def setPort (m : List (Nat × Nat)) (k v : Nat) : List (Nat × Nat) :=
  match m with
  | [] => [(k, v)]
  | kv :: rest => if kv.1 == k then (k, v) :: rest else kv :: setPort rest k v

/-- The `Run` class of `runs.server.ts` / `runs.ts`: one provisioned
sandbox.  The engine container handle is opaque and carried by the
environments instead; `cleaned` is the `disposed` flag. -/
structure Run where
  tmpDir : String
  portMap : List (Nat × Nat)
  cleaned : Bool
deriving DecidableEq, Repr

/-- `Run.publicUrl`:
`const hostPort = this.portMap[port]; if (!hostPort) throw ...;`
`return "http://localhost:" + hostPort`.  JS truthiness makes both an
absent entry and a `0` entry throw. -/
def Run.publicUrl (r : Run) (port : Nat) : Except CErr String :=
  match lookupPort r.portMap port with
  | none => Except.error (CErr.portNotPublished port)
  | some hostPort =>
      if hostPort == 0 then Except.error (CErr.portNotPublished port)
      else Except.ok ("http://localhost:" ++ toString hostPort)

/-- Which teardown calls fail, for `dispose`.  `fs.rm(..., {force:true})`
still throws on errors other than a missing path (EACCES, EBUSY, I/O),
which is what `rmFails` models. -/
structure TeardownEnv where
  stopFails : Bool
  removeFails : Bool
  rmFails : Bool
deriving DecidableEq, Repr

/-- `Run.dispose`:
`if (this.cleaned) return;`
`try { await this.container.stop({t:5}) } catch { }`
`try { await this.container.remove({force:true}) } catch { }`
`await rm(this.tmpDir, {recursive:true, force:true});`
`this.cleaned = true;`
Stop and remove failures are swallowed by their `catch` blocks, so all
three calls are always attempted; the `rm` call is not wrapped, so an
`rm` failure propagates and `cleaned` is then never set.
Returns (updated object, attempted calls, thrown error if any). -/
def Run.dispose (r : Run) (tenv : TeardownEnv) : Run × List Event × Option CErr :=
  if r.cleaned then (r, [], none)
  else
    let stopEvs : List Event := [Event.containerStop]
    let removeEvs : List Event := stopEvs ++ [Event.containerRemove]
    let rmEvs : List Event := removeEvs ++ [Event.rmTempDir]
    if tenv.rmFails then (r, rmEvs, some (CErr.external "rm tmpDir"))
    else ({ r with cleaned := true }, rmEvs, none)

/-- `ExecOptions` (zod schema in types): `cmd` required, the rest
optional with destructuring defaults in `createExec`. -/
structure ExecOpts where
  cmd : String
  args : Option (List String)
  env : Option (List (String × String))
  workdir : Option String
deriving DecidableEq, Repr

/-- The object passed to `container.exec(...)`. -/
structure ExecConfig where
  Cmd : List String
  WorkingDir : String
  Env : List String
  AttachStdout : Bool
  AttachStderr : Bool
deriving DecidableEq, Repr

/-- `Run.createExec`:
`({cmd, args = [], env = {}, workdir = "/workspace"})`:
`if (!cmd) throw new Error("ExecOptions.cmd is required");`
then `this.container.exec({Cmd:[cmd,...args], WorkingDir:workdir, Env:...,
AttachStdout:true, AttachStderr:true})`.  The guard fires before any
container interaction, so the failure trace is empty. -/
def Run.createExec (r : Run) (opts : ExecOpts) : List Event × Except CErr ExecConfig :=
  if opts.cmd == "" then ([], Except.error CErr.missingCmd)
  else
    let args := opts.args.getD []
    let env := opts.env.getD []
    let workdir := opts.workdir.getD "/workspace"
    ([Event.containerExec],
     Except.ok
       { Cmd := opts.cmd :: args
         WorkingDir := workdir
         Env := env.map (fun kv => kv.1 ++ "=" ++ kv.2)
         AttachStdout := true
         AttachStderr := true })

/-- The engine-reported `ExecInfo.ExitCode` (`number | null`) consumed by
`execWait`. -/
structure ExecEnv where
  exitCode : Option Int
deriving DecidableEq, Repr

/-- `Run.execWait`: `createExec`, `exec.start({hijack:true,stdin:false})`,
`exec.inspect()`, `return ExitCode ?? -1`. -/
def Run.execWait (r : Run) (opts : ExecOpts) (eenv : ExecEnv) :
    List Event × Except CErr Int :=
  match r.createExec opts with
  | (evs, Except.error e) => (evs, Except.error e)
  | (evs, Except.ok _) =>
      (evs ++ [Event.execStart, Event.execInspect],
       Except.ok (eenv.exitCode.getD (-1)))

/-- `Run.exec` (non-waiting): `createExec` then `exec.start(...)`,
returning the live handle (modelled by its exec configuration). -/
def Run.exec (r : Run) (opts : ExecOpts) : List Event × Except CErr ExecConfig :=
  match r.createExec opts with
  | (evs, Except.error e) => (evs, Except.error e)
  | (evs, Except.ok cfg) => (evs ++ [Event.execStart], Except.ok cfg)

/-! ## Image resolver (`ensureImage` / `ensureRuntimeImage`, `pullIfMissing`) -/

/-- JS `s.startsWith(pre)`, modelled on the character list (the core
`String.startsWith` is extensionally the same but does not reduce in the
kernel). -/
def strStartsWith (s pre : String) : Bool :=
  pre.data.isPrefixOf s.data

/-- Engine-side image state for `pullIfMissing`: whether
`getImage(ref).inspect()` succeeds (image present locally), and whether a
needed `pull` fails. -/
structure ImageEnv where
  imagePresent : Bool
  pullFails : Bool
deriving DecidableEq, Repr

/-- `pullImageIfMissing` / `pullIfMissing`:
`try { await getImage(ref).inspect() } catch { await pull(ref) ... }` —
the pull stream is awaited to completion and a pull error propagates. -/
def pullIfMissing (ienv : ImageEnv) (ref : String) : List Event × Option CErr :=
  if ienv.imagePresent then ([Event.imageInspect ref], none)
  else if ienv.pullFails then
    ([Event.imageInspect ref, Event.imagePull ref], some (CErr.external "image pull"))
  else ([Event.imageInspect ref, Event.imagePull ref], none)

/-- `DockerAdapter.ensureImage` (identical to `ensureRuntimeImage` in
`src/utils.ts` and `packages/compute`'s utils):
`if (runtime.startsWith("node")) { tag = runtime.replace(/^node/, "");`
`image = "node:" + tag + "-slim"; await pullIfMissing(image); return image }`
`throw new Error("Unsupported runtime " + runtime)`.
Under the `startsWith` guard the regex replace drops the four-character
prefix. -/
def ensureImage (ienv : ImageEnv) (runtime : String) :
    List Event × Except CErr String :=
  if strStartsWith runtime "node" then
    let tag := runtime.drop 4
    let image := "node:" ++ tag ++ "-slim"
    match pullIfMissing ienv image with
    | (evs, some e) => (evs, Except.error e)
    | (evs, none) => (evs, Except.ok image)
  else ([], Except.error (CErr.unsupportedRuntime runtime))

/-- `ContainerdAdapter.ensureImage`: same prefix check and tag stripping,
but the image reference is fully qualified:
`image = "docker.io/library/node:" + tag + "-slim"`. -/
def containerdEnsureImage (ienv : ImageEnv) (runtime : String) :
    List Event × Except CErr String :=
  if strStartsWith runtime "node" then
    let tag := runtime.drop 4
    let image := "docker.io/library/node:" ++ tag ++ "-slim"
    match pullIfMissing ienv image with
    | (evs, some e) => (evs, Except.error e)
    | (evs, none) => (evs, Except.ok image)
  else ([], Except.error (CErr.unsupportedRuntime runtime))

/-! ## Source materializer (`materializeSource` / `cloneGit`) -/

/-- A git source (`GitSource` zod schema); the `type` field is the
literal `"git"` and is omitted. -/
structure GitSource where
  url : String
  ref : Option String
  depth : Option Nat
deriving DecidableEq, Repr

/-- Which git operations fail. -/
structure SourceEnv where
  cloneFails : Bool
  checkoutFails : Bool
deriving DecidableEq, Repr

/-- `cloneGit`: shallow `git.clone(url, targetDir, ["--depth", depth ?? 1])`,
then `git.checkout(ref)` only when a `ref` was given; any git failure
propagates. -/
def cloneGit (senv : SourceEnv) (src : GitSource) : List Event × Option CErr :=
  if senv.cloneFails then ([Event.cloneRepo], some (CErr.external "git clone"))
  else
    match src.ref with
    | some _ =>
        if senv.checkoutFails then
          ([Event.cloneRepo, Event.checkoutRef], some (CErr.external "git checkout"))
        else ([Event.cloneRepo, Event.checkoutRef], none)
    | none => ([Event.cloneRepo], none)

/-- `materializeSource`: dispatches on `source.type`; the `Source` schema
admits only `"git"`, so the `Unsupported source type` branch is
unreachable and the call is `cloneGit`. -/
def materializeSource (senv : SourceEnv) (src : GitSource) :
    List Event × Option CErr :=
  cloneGit senv src

/-! ## Port-map extraction (`getPortMappings`) -/

/-- JS `parseInt(s, 10)` on the engine's decimal port strings: parse the
leading run of digits, `NaN` (modelled as `none`) when there is none. -/
def parsePort (s : String) : Option Nat :=
  let ds := s.data.takeWhile Char.isDigit
  if ds.isEmpty then none
  else some (ds.foldl (fun n c => 10 * n + (c.toNat - 48)) 0)

/-- `k.split("/")[0]` of a port-binding key such as `"3000/tcp"`. -/
def portKeyPrefix (k : String) : String :=
  { data := k.data.takeWhile (fun c => c != '/') }

/-- The engine's `inspect().NetworkSettings.Ports` record: binding key →
list of `HostPort` strings (an absent/undefined array is the empty
list). -/
abbrev InspectPorts : Type := List (String × List String)

/-- `DockerAdapter.getPortMappings` body (also inlined in both
`createRun` variants):
`containerPort = parseInt(k.split("/")[0], 10);`
`hostPort = v?.[0]?.HostPort ? parseInt(v[0].HostPort, 10) : undefined;`
`if (hostPort) portMap[containerPort] = hostPort;`
The JS truthiness test on `hostPort` skips `NaN`, `0` and the empty
string; a `NaN` container port would be recorded under the key `"NaN"`,
which no numeric lookup can reach, so it is modelled by skipping. -/
def getPortMappings (ports : InspectPorts) : List (Nat × Nat) :=
  ports.foldl
    (fun portMap kv =>
      let containerPort := parsePort (portKeyPrefix kv.1)
      let hostPort :=
        match kv.2.head? with
        | some hp => if hp == "" then none else parsePort hp
        | none => none
      match containerPort, hostPort with
      | some cp, some hp => if hp == 0 then portMap else setPort portMap cp hp
      | _, _ => portMap)
    []

/-- `ContainerdAdapter.getPortMappings`: awaits `container.inspect()` and
then returns the freshly created **empty** `portMap`, ignoring the
inspection result (the port-mapping extraction is left unimplemented). -/
def containerdGetPortMappings (insp : InspectPorts) : List (Nat × Nat) :=
  []

/-! ## Provisioning (`createRun`) -/

/-- `CreateRunOptions` zod schema: `source`, `runtime` (free-form string),
optional `ports` and `labels`. -/
structure CreateRunOptions where
  source : GitSource
  runtime : String
  ports : Option (List Nat)
  labels : Option (List (String × String))
deriving DecidableEq, Repr

/-- Environment for a whole creation attempt: the path `mkdtemp` hands
back, the git and image outcomes, whether container create / start fail,
and what the post-start inspection reports. -/
structure ProvisionEnv where
  tmpDirPath : String
  sourceEnv : SourceEnv
  imageEnv : ImageEnv
  createFails : Bool
  startFails : Bool
  inspectPorts : InspectPorts
deriving DecidableEq, Repr

/-- What a successful creation hands back before registration (the
`RunResult` shape; the opaque container handle is elided). -/
structure RunResult where
  tmpDir : String
  portMap : List (Nat × Nat)
deriving DecidableEq, Repr

/-- `DockerAdapter.createRun` (the same await sequence as `createRun` in
`packages/compute/src/index.ts` and the body of the tRPC `createRun`
procedure): mkdtemp → `materializeSource` → `ensureImage` → container
create → start → port-map extraction from the post-start inspection.
There is no `try`/`catch` and no compensation: the first failing await
propagates, with nothing after it attempted (in particular no removal of
the already-created temp directory). -/
def dockerCreateRun (penv : ProvisionEnv) (opts : CreateRunOptions) :
    List Event × Except CErr RunResult :=
  let evs0 : List Event := [Event.mkTempDir]
  match materializeSource penv.sourceEnv opts.source with
  | (evs1, some e) => (evs0 ++ evs1, Except.error e)
  | (evs1, none) =>
    match ensureImage penv.imageEnv opts.runtime with
    | (evs2, Except.error e) => (evs0 ++ evs1 ++ evs2, Except.error e)
    | (evs2, Except.ok _image) =>
      if penv.createFails then
        (evs0 ++ evs1 ++ evs2 ++ [Event.containerCreate],
         Except.error (CErr.external "createContainer"))
      else if penv.startFails then
        (evs0 ++ evs1 ++ evs2 ++ [Event.containerCreate, Event.containerStart],
         Except.error (CErr.external "startContainer"))
      else
        (evs0 ++ evs1 ++ evs2 ++
           [Event.containerCreate, Event.containerStart, Event.containerInspect],
         Except.ok { tmpDir := penv.tmpDirPath
                     portMap := getPortMappings penv.inspectPorts })

/-- `ContainerdAdapter.createRun`: the same sequence with the containerd
image resolution and the containerd port-map extraction (which always
yields the empty map). -/
def containerdCreateRun (penv : ProvisionEnv) (opts : CreateRunOptions) :
    List Event × Except CErr RunResult :=
  let evs0 : List Event := [Event.mkTempDir]
  match materializeSource penv.sourceEnv opts.source with
  | (evs1, some e) => (evs0 ++ evs1, Except.error e)
  | (evs1, none) =>
    match containerdEnsureImage penv.imageEnv opts.runtime with
    | (evs2, Except.error e) => (evs0 ++ evs1 ++ evs2, Except.error e)
    | (evs2, Except.ok _image) =>
      if penv.createFails then
        (evs0 ++ evs1 ++ evs2 ++ [Event.containerCreate],
         Except.error (CErr.external "createContainer"))
      else if penv.startFails then
        (evs0 ++ evs1 ++ evs2 ++ [Event.containerCreate, Event.containerStart],
         Except.error (CErr.external "startContainer"))
      else
        (evs0 ++ evs1 ++ evs2 ++
           [Event.containerCreate, Event.containerStart, Event.containerInspect],
         Except.ok { tmpDir := penv.tmpDirPath
                     portMap := containerdGetPortMappings penv.inspectPorts })

/-! ## Registry and remote bridge (tRPC routers in `trpc` server module) -/

/-- A JS `Map<string, α>`, modelled extensionally. -/
def StrMap (α : Type) : Type := String → Option α

/-- `Map.prototype.set`. -/
def StrMap.set {α : Type} (m : StrMap α) (k : String) (v : α) : StrMap α :=
  fun q => if q == k then some v else m q

/-- `Map.prototype.delete`. -/
def StrMap.del {α : Type} (m : StrMap α) (k : String) : StrMap α :=
  fun q => if q == k then none else m q

/-- `new Map()`. -/
def StrMap.empty {α : Type} : StrMap α := fun _ => none

/-- The module-level `runs` and `execs` maps of the tRPC server: sandbox
id → `Run`, exec id → engine exec handle.  The stored `ExecInstance` is
an opaque engine handle, modelled as `Unit` — the claims about this map
concern addressability only. -/
structure Registry where
  runs : StrMap Run
  execs : StrMap Unit

/-- `runRouter.publicUrl`: `if (!runs.has(id)) throw NOT_FOUND;` then
`run.publicUrl(port)`. -/
def routerPublicUrl (reg : Registry) (id : String) (port : Nat) :
    Except CErr String :=
  match reg.runs id with
  | none => Except.error (CErr.notFoundRun id)
  | some run => run.publicUrl port

/-- `runRouter.execWait`: existence check, then `run.execWait(opts)`. -/
def routerExecWait (reg : Registry) (id : String) (opts : ExecOpts)
    (eenv : ExecEnv) : List Event × Except CErr Int :=
  match reg.runs id with
  | none => ([], Except.error (CErr.notFoundRun id))
  | some run => run.execWait opts eenv

/-- `runRouter.exec` (the streaming subscription): existence check, mint
`execId`, `run.exec(opts)` (whose failure propagates before anything is
registered), then `execs.set(execId, exec)` and yield the start event
carrying `execId`.  The data-chunk forwarding is elided. -/
def routerExec (reg : Registry) (id : String) (execId : String)
    (opts : ExecOpts) : Registry × List Event × Except CErr String :=
  match reg.runs id with
  | none => (reg, [], Except.error (CErr.notFoundRun id))
  | some run =>
      match run.exec opts with
      | (evs, Except.error e) => (reg, evs, Except.error e)
      | (evs, Except.ok _) =>
          ({ reg with execs := reg.execs.set execId () }, evs, Except.ok execId)

/-- `runRouter.execs.inspect`: `if (!execs.has(id)) throw NOT_FOUND;`
then `exec.inspect()` — the engine-supplied payload is elided, the
result records whether the lookup succeeded. -/
def routerExecInspect (reg : Registry) (id : String) : Except CErr Unit :=
  match reg.execs id with
  | none => Except.error (CErr.notFoundExec id)
  | some _ => Except.ok ()

/-- `runRouter.dispose`: existence check, `await run.dispose()`, then
`runs.delete(id)`.  If `run.dispose()` throws, the delete is never
reached; the `execs` map is not touched on any path. -/
def routerDispose (reg : Registry) (id : String) (tenv : TeardownEnv) :
    Registry × List Event × Option CErr :=
  match reg.runs id with
  | none => (reg, [], some (CErr.notFoundRun id))
  | some run =>
      match run.dispose tenv with
      | (run', evs, some e) =>
          ({ reg with runs := reg.runs.set id run' }, evs, some e)
      | (_, evs, none) =>
          ({ reg with runs := reg.runs.del id }, evs, none)

/-- The `createRun` response shape `{id, tmpDir, portMap}`. -/
structure CreateRunResponse where
  id : String
  tmpDir : String
  portMap : List (Nat × Nat)
deriving DecidableEq, Repr

/-- `computeRouter.createRun`: runs the docker-style provisioning
sequence; only after every step has succeeded is a fresh id minted
(`uuidv4`, supplied here as `freshId`), the `Run` constructed and
registered with `runs.set(id, run)`.  Any earlier failure propagates
with the registry untouched. -/
def routerCreateRun (reg : Registry) (penv : ProvisionEnv)
    (opts : CreateRunOptions) (freshId : String) :
    Registry × List Event × Except CErr CreateRunResponse :=
  match dockerCreateRun penv opts with
  | (evs, Except.error e) => (reg, evs, Except.error e)
  | (evs, Except.ok res) =>
      ({ reg with
          runs := reg.runs.set freshId
            { tmpDir := res.tmpDir, portMap := res.portMap, cleaned := false } },
       evs ++ [Event.registerRun freshId],
       Except.ok { id := freshId, tmpDir := res.tmpDir, portMap := res.portMap })

/-! ## Concrete fixtures used by witnesses and counterexamples -/

/-- A freshly provisioned sandbox with one published port. -/
def runFresh : Run :=
  { tmpDir := "/tmp/runws-abc123", portMap := [(3000, 49153)], cleaned := false }

/-- Teardown in which every engine/filesystem call succeeds. -/
def tenvOk : TeardownEnv := { stopFails := false, removeFails := false, rmFails := false }

/-- Teardown in which every step fails, including the temp-dir removal. -/
def tenvAllFail : TeardownEnv := { stopFails := true, removeFails := true, rmFails := true }

/-- `{cmd: "true"}`. -/
def execTrue : ExecOpts := { cmd := "true", args := none, env := none, workdir := none }

/-- `{cmd: ""}`. -/
def execEmptyCmd : ExecOpts := { cmd := "", args := none, env := none, workdir := none }

/-- An exec whose process exited with code 0. -/
def eenvZero : ExecEnv := { exitCode := some 0 }

/-- The scenario git source from the spec. -/
def gitSrc : GitSource := { url := "https://example.test/repo.git", ref := none, depth := none }

/-- Git operations succeed. -/
def senvOk : SourceEnv := { cloneFails := false, checkoutFails := false }

/-- The clone fails (unreachable URL). -/
def senvCloneFail : SourceEnv := { cloneFails := true, checkoutFails := false }

/-- The image is already present locally. -/
def ienvPresent : ImageEnv := { imagePresent := true, pullFails := false }

/-- The spec scenario request: git source, `node22`, `ports:[3000]`. -/
def optsNode : CreateRunOptions :=
  { source := gitSrc, runtime := "node22", ports := some [3000], labels := none }

/-- A fully successful provisioning environment whose post-start
inspection reports `3000/tcp → 49153`. -/
def penvOk : ProvisionEnv :=
  { tmpDirPath := "/tmp/runws-abc123"
    sourceEnv := senvOk
    imageEnv := ienvPresent
    createFails := false
    startFails := false
    inspectPorts := [("3000/tcp", ["49153"])] }

/-- Same environment with a failing clone. -/
def penvCloneFail : ProvisionEnv := { penvOk with sourceEnv := senvCloneFail }

/-- A registry holding the single sandbox `"r1"`. -/
def regRun1 : Registry :=
  { runs := StrMap.set StrMap.empty "r1" runFresh, execs := StrMap.empty }

/-- The disjunction of external calls a provisioning flow can attempt;
used to state what the flow never does (no temp-dir removal, no
registration inside the adapter). -/
def isProvisionEvent (ev : Event) : Prop :=
  ev = Event.mkTempDir ∨ ev = Event.cloneRepo ∨ ev = Event.checkoutRef ∨
  (∃ ref, ev = Event.imageInspect ref) ∨ (∃ ref, ev = Event.imagePull ref) ∨
  ev = Event.containerCreate ∨ ev = Event.containerStart ∨
  ev = Event.containerInspect

end Compute

namespace Compute

/-! ## Helper lemmas about traces -/

/-- The trace of `cloneGit` holds only git events. -/
theorem cloneGit_trace (senv : SourceEnv) (src : GitSource) :
    (cloneGit senv src).1 = [Event.cloneRepo] ∨
    (cloneGit senv src).1 = [Event.cloneRepo, Event.checkoutRef] := by
  unfold cloneGit
  rcases h : src.ref with _ | r <;> by_cases hc : senv.cloneFails <;>
    simp [hc]
  by_cases hco : senv.checkoutFails <;> simp [hco]

/-- The trace of `ensureImage` holds only image events. -/
theorem ensureImage_trace (ienv : ImageEnv) (runtime : String) :
    (ensureImage ienv runtime).1 = [] ∨
    (∃ ref, (ensureImage ienv runtime).1 = [Event.imageInspect ref]) ∨
    (∃ ref, (ensureImage ienv runtime).1 =
      [Event.imageInspect ref, Event.imagePull ref]) := by
  unfold ensureImage pullIfMissing
  by_cases hr : strStartsWith runtime "node" <;>
    by_cases hp : ienv.imagePresent <;>
      by_cases hf : ienv.pullFails <;>
        simp [hr, hp, hf]

/-- Dispatcher: a member of a `cloneGit` trace is a git event. -/
theorem mem_source_trace {ev : Event} {evs : List Event}
    (h1 : evs = [Event.cloneRepo] ∨ evs = [Event.cloneRepo, Event.checkoutRef])
    (h : ev ∈ evs) : ev = Event.cloneRepo ∨ ev = Event.checkoutRef := by
  rcases h1 with h1 | h1 <;> subst h1 <;> simp at h <;> tauto

/-- Dispatcher: a member of an `ensureImage` trace is an image event. -/
theorem mem_image_trace {ev : Event} {evs : List Event}
    (h1 : evs = [] ∨ (∃ ref, evs = [Event.imageInspect ref]) ∨
      (∃ ref, evs = [Event.imageInspect ref, Event.imagePull ref]))
    (h : ev ∈ evs) :
    (∃ ref, ev = Event.imageInspect ref) ∨ (∃ ref, ev = Event.imagePull ref) := by
  rcases h1 with h1 | ⟨ref, h1⟩ | ⟨ref, h1⟩ <;> subst h1 <;> simp at h
  · exact Or.inl ⟨ref, h⟩
  · rcases h with h | h
    · exact Or.inl ⟨ref, h⟩
    · exact Or.inr ⟨ref, h⟩

set_option maxHeartbeats 1000000 in
/-- Every event in a `dockerCreateRun` trace is one of the provisioning
calls: in particular the flow never attempts a temp-directory removal
and never registers anything itself. -/
theorem dockerCreateRun_trace_shape (penv : ProvisionEnv)
    (opts : CreateRunOptions) (ev : Event)
    (hev : ev ∈ (dockerCreateRun penv opts).1) : isProvisionEvent ev := by
  rcases hm : materializeSource penv.sourceEnv opts.source with ⟨evs1, err1⟩
  have hm' : cloneGit penv.sourceEnv opts.source = (evs1, err1) := hm
  have h1 := cloneGit_trace penv.sourceEnv opts.source
  rw [hm'] at h1
  have dispatch1 : ∀ {e : Event}, e ∈ evs1 → isProvisionEvent e := by
    intro e h
    rcases mem_source_trace h1 h with h | h
    · exact Or.inr (Or.inl h)
    · exact Or.inr (Or.inr (Or.inl h))
  cases err1 with
  | some e =>
      simp [dockerCreateRun, hm] at hev
      rcases hev with h | h
      · exact Or.inl h
      · exact dispatch1 h
  | none =>
      rcases hi : ensureImage penv.imageEnv opts.runtime with ⟨evs2, res2⟩
      have h2 := ensureImage_trace penv.imageEnv opts.runtime
      rw [hi] at h2
      have dispatch2 : ∀ {e : Event}, e ∈ evs2 → isProvisionEvent e := by
        intro e h
        rcases mem_image_trace h2 h with h | h
        · exact Or.inr (Or.inr (Or.inr (Or.inl h)))
        · exact Or.inr (Or.inr (Or.inr (Or.inr (Or.inl h))))
      cases res2 with
      | error e =>
          simp [dockerCreateRun, hm, hi] at hev
          rcases hev with h | h | h
          · exact Or.inl h
          · exact dispatch1 h
          · exact dispatch2 h
      | ok img =>
          by_cases hcr : penv.createFails
          · simp [dockerCreateRun, hm, hi, hcr] at hev
            rcases hev with h | h | h | h
            · exact Or.inl h
            · exact dispatch1 h
            · exact dispatch2 h
            · exact Or.inr (Or.inr (Or.inr (Or.inr (Or.inr (Or.inl h)))))
          · by_cases hst : penv.startFails
            · simp [dockerCreateRun, hm, hi, hcr, hst] at hev
              rcases hev with h | h | h | h | h
              · exact Or.inl h
              · exact dispatch1 h
              · exact dispatch2 h
              · exact Or.inr (Or.inr (Or.inr (Or.inr (Or.inr (Or.inl h)))))
              · exact Or.inr (Or.inr (Or.inr (Or.inr (Or.inr (Or.inr (Or.inl h))))))
            · simp [dockerCreateRun, hm, hi, hcr, hst] at hev
              rcases hev with h | h | h | h | h | h
              · exact Or.inl h
              · exact dispatch1 h
              · exact dispatch2 h
              · exact Or.inr (Or.inr (Or.inr (Or.inr (Or.inr (Or.inl h)))))
              · exact Or.inr (Or.inr (Or.inr (Or.inr (Or.inr (Or.inr (Or.inl h))))))
              · exact Or.inr (Or.inr (Or.inr (Or.inr (Or.inr (Or.inr (Or.inr h))))))

/-! ## Claim C1 -/

/-- C1 counterexample: `dispose()` is not exception-free.  On a live
sandbox whose temp-directory removal fails, `dispose` propagates the
`rm` error to its caller (the final `await rm(...)` is outside every
`try`/`catch`), refuting "dispose() never throws to its caller". -/
theorem dispose_rm_failure_throws :
    (Run.dispose runFresh tenvAllFail).2.2 = some (CErr.external "rm tmpDir") := by
  rfl

/-- C1 (amended): on a not-yet-disposed sandbox each of the three
teardown steps is attempted regardless of earlier failures — a stop
failure does not prevent the force-remove, and a remove failure does not
prevent the temp-directory cleanup — and `dispose()` returns without
throwing whenever the temp-directory removal itself succeeds; only a
temp-directory removal failure escapes to the caller. -/
theorem dispose_attempts_all_steps (r : Run) (tenv : TeardownEnv)
    (h : r.cleaned = false) :
    (r.dispose tenv).2.1 =
      [Event.containerStop, Event.containerRemove, Event.rmTempDir] ∧
    (tenv.rmFails = false → (r.dispose tenv).2.2 = none) := by
  constructor
  · by_cases hrm : tenv.rmFails <;> simp [Run.dispose, h, hrm]
  · intro hrm; simp [Run.dispose, h, hrm]

/-- Witness for `dispose_attempts_all_steps` at the concrete fixture. -/
theorem dispose_attempts_all_steps_witness :
    (Run.dispose runFresh tenvOk).2.1 =
      [Event.containerStop, Event.containerRemove, Event.rmTempDir] ∧
    (tenvOk.rmFails = false → (Run.dispose runFresh tenvOk).2.2 = none) :=
  dispose_attempts_all_steps runFresh tenvOk rfl

/-! ## Claim C5 -/

/-- C5: `publicUrl(p)` for a port absent from the sandbox's `portMap`
always fails with the port-not-published error and never yields a URL. -/
theorem publicUrl_unpublished_fails (r : Run) (p : Nat)
    (h : lookupPort r.portMap p = none) :
    r.publicUrl p = Except.error (CErr.portNotPublished p) := by
  simp [Run.publicUrl, h]

/-- Witness for `publicUrl_unpublished_fails`: port 8080 was never in
the creation request of `runFresh` (which published only 3000). -/
theorem publicUrl_unpublished_fails_witness :
    Run.publicUrl runFresh 8080 = Except.error (CErr.portNotPublished 8080) :=
  publicUrl_unpublished_fails runFresh 8080 (by decide)

/-! ## Claim C7 -/

/-- C7: after a first completed (non-throwing) `dispose()`, the object is
marked disposed, a second `dispose()` is an immediate no-op success that
re-attempts no teardown call, and on a previously live sandbox the mark
is set only after all three teardown steps were attempted. -/
theorem dispose_idempotent_marked_after_steps (r : Run)
    (t1 t2 : TeardownEnv) (h : (r.dispose t1).2.2 = none) :
    (r.dispose t1).1.cleaned = true ∧
    Run.dispose (r.dispose t1).1 t2 = ((r.dispose t1).1, [], none) ∧
    (r.cleaned = false →
      (r.dispose t1).2.1 =
        [Event.containerStop, Event.containerRemove, Event.rmTempDir]) := by
  by_cases hc : r.cleaned
  · refine ⟨?_, ?_, ?_⟩ <;> simp [Run.dispose, hc]
  · simp only [Bool.not_eq_true] at hc
    by_cases hrm : t1.rmFails
    · exfalso
      simp [Run.dispose, hc, hrm] at h
    · refine ⟨?_, ?_, ?_⟩ <;> simp [Run.dispose, hc, hrm]

/-- Witness for `dispose_idempotent_marked_after_steps` at the concrete
fixture. -/
theorem dispose_idempotent_marked_after_steps_witness :
    (Run.dispose runFresh tenvOk).1.cleaned = true ∧
    Run.dispose (Run.dispose runFresh tenvOk).1 tenvAllFail =
      ((Run.dispose runFresh tenvOk).1, [], none) ∧
    (runFresh.cleaned = false →
      (Run.dispose runFresh tenvOk).2.1 =
        [Event.containerStop, Event.containerRemove, Event.rmTempDir]) :=
  dispose_idempotent_marked_after_steps runFresh tenvOk tenvAllFail rfl

/-! ## Claim C9 -/

/-- C9: an exec request whose `cmd` is empty fails with the
missing-command error before any container interaction (the attempted
call trace is empty), for both `execWait` and the non-waiting `exec`;
the command is never defaulted. -/
theorem empty_cmd_fails_first (r : Run) (opts : ExecOpts) (eenv : ExecEnv)
    (h : opts.cmd = "") :
    r.execWait opts eenv = ([], Except.error CErr.missingCmd) ∧
    r.exec opts = ([], Except.error CErr.missingCmd) := by
  constructor <;> simp [Run.execWait, Run.exec, Run.createExec, h]

/-- Witness for `empty_cmd_fails_first` at `{cmd: ""}`. -/
theorem empty_cmd_fails_first_witness :
    Run.execWait runFresh execEmptyCmd eenvZero =
      ([], Except.error CErr.missingCmd) ∧
    Run.exec runFresh execEmptyCmd = ([], Except.error CErr.missingCmd) :=
  empty_cmd_fails_first runFresh execEmptyCmd eenvZero rfl

/-! ## Claim C2 -/

/-- A completed (non-throwing) bridge `dispose` leaves no entry for the
id in the runs map. -/
theorem routerDispose_deletes_run (reg : Registry) (id : String)
    (tenv : TeardownEnv) (h : (routerDispose reg id tenv).2.2 = none) :
    (routerDispose reg id tenv).1.runs id = none := by
  cases hr : reg.runs id with
  | none => simp [routerDispose, hr] at h
  | some run =>
      rcases hd : run.dispose tenv with ⟨run', evs, oe⟩
      cases oe with
      | some e => simp [routerDispose, hr, hd] at h
      | none => simp [routerDispose, hr, hd, StrMap.del]

/-- C2: once a bridge `dispose` on a sandbox id has completed, every
subsequent `execWait`, streaming `exec`, or `publicUrl` request for the
same id fails with the not-found error and never succeeds. -/
theorem post_dispose_ops_not_found (reg : Registry) (id : String)
    (tenv : TeardownEnv) (opts : ExecOpts) (eenv : ExecEnv)
    (execId : String) (port : Nat)
    (h : (routerDispose reg id tenv).2.2 = none) :
    (routerExecWait (routerDispose reg id tenv).1 id opts eenv).2 =
      Except.error (CErr.notFoundRun id) ∧
    (routerExec (routerDispose reg id tenv).1 id execId opts).2.2 =
      Except.error (CErr.notFoundRun id) ∧
    routerPublicUrl (routerDispose reg id tenv).1 id port =
      Except.error (CErr.notFoundRun id) := by
  have hdel := routerDispose_deletes_run reg id tenv h
  refine ⟨?_, ?_, ?_⟩ <;>
    simp [routerExecWait, routerExec, routerPublicUrl, hdel]

/-- Witness for `post_dispose_ops_not_found` at the concrete registry. -/
theorem post_dispose_ops_not_found_witness :
    (routerExecWait (routerDispose regRun1 "r1" tenvOk).1 "r1" execTrue eenvZero).2 =
      Except.error (CErr.notFoundRun "r1") ∧
    (routerExec (routerDispose regRun1 "r1" tenvOk).1 "r1" "e1" execTrue).2.2 =
      Except.error (CErr.notFoundRun "r1") ∧
    routerPublicUrl (routerDispose regRun1 "r1" tenvOk).1 "r1" 3000 =
      Except.error (CErr.notFoundRun "r1") :=
  post_dispose_ops_not_found regRun1 "r1" tenvOk execTrue eenvZero "e1" 3000 rfl

/-! ## Claim C8 -/

/-- C8 counterexample: a bridge `dispose` on the owning sandbox completes,
yet the exec id registered by the streaming `exec` is still addressable
afterwards — `runRouter.dispose` deletes only from the runs map and never
prunes the execs map, refuting "from that point on, every lookup of that
exec id must fail". -/
theorem exec_lookup_survives_dispose :
    (routerDispose (routerExec regRun1 "r1" "e1" execTrue).1 "r1" tenvOk).2.2 =
      none ∧
    routerExecInspect
      (routerDispose (routerExec regRun1 "r1" "e1" execTrue).1 "r1" tenvOk).1
      "e1" = Except.ok () := by
  constructor <;> rfl

/-- The bridge `dispose` never touches the execs map. -/
theorem routerDispose_execs_unchanged (reg : Registry) (id : String)
    (tenv : TeardownEnv) (eid : String) :
    (routerDispose reg id tenv).1.execs eid = reg.execs eid := by
  cases hr : reg.runs id with
  | none => simp [routerDispose, hr]
  | some run =>
      rcases hd : run.dispose tenv with ⟨run', evs, oe⟩
      cases oe <;> simp [routerDispose, hr, hd]

/-- C8 (amended): an exec created through the remote bridge is
addressable for out-of-band inspection from the moment it is registered,
and it stays addressable even after the owning sandbox is disposed:
`dispose` removes only the sandbox's runs-map entry, so exec-id lookups
continue to succeed (the execs map is never pruned). -/
theorem exec_addressable_not_pruned (reg : Registry) (runId execId : String)
    (opts : ExecOpts)
    (h : (routerExec reg runId execId opts).2.2 = Except.ok execId) :
    routerExecInspect (routerExec reg runId execId opts).1 execId =
      Except.ok () ∧
    ∀ (dId : String) (tenv : TeardownEnv),
      routerExecInspect
        (routerDispose (routerExec reg runId execId opts).1 dId tenv).1
        execId = Except.ok () := by
  have hreg : (routerExec reg runId execId opts).1.execs execId = some () := by
    cases hr : reg.runs runId with
    | none => simp [routerExec, hr] at h
    | some run =>
        rcases he : run.exec opts with ⟨evs, res⟩
        cases res with
        | error e => simp [routerExec, hr, he] at h
        | ok cfg => simp [routerExec, hr, he, StrMap.set]
  constructor
  · simp [routerExecInspect, hreg]
  · intro dId tenv
    rw [routerExecInspect, routerDispose_execs_unchanged, hreg]

/-- Witness for `exec_addressable_not_pruned` at the concrete registry. -/
theorem exec_addressable_not_pruned_witness :
    routerExecInspect (routerExec regRun1 "r1" "e1" execTrue).1 "e1" =
      Except.ok () ∧
    ∀ (dId : String) (tenv : TeardownEnv),
      routerExecInspect
        (routerDispose (routerExec regRun1 "r1" "e1" execTrue).1 dId tenv).1
        "e1" = Except.ok () :=
  exec_addressable_not_pruned regRun1 "r1" "e1" execTrue rfl

/-! ## Claim C3 -/

/-- C3 counterexample: a creation whose clone fails surfaces the error
and registers nothing, but the already-created temp directory is never
released — there is no removal call anywhere in the failing trace,
refuting "the already-acquired partial resources — the temp directory at
minimum — are released before the error is surfaced". -/
theorem createRun_failure_leaks_tmpdir :
    dockerCreateRun penvCloneFail optsNode =
      ([Event.mkTempDir, Event.cloneRepo],
       Except.error (CErr.external "git clone")) ∧
    Event.rmTempDir ∉ (dockerCreateRun penvCloneFail optsNode).1 := by
  constructor
  · rfl
  · decide

/-- C3 (amended): any provisioning failure aborts the whole creation:
the error is surfaced verbatim, the registry is left untouched and no
half-created sandbox is ever registered — but the already-acquired
partial resources are not released: the failing flow attempts no
temp-directory removal. -/
theorem createRun_failure_no_registration (reg : Registry)
    (penv : ProvisionEnv) (opts : CreateRunOptions) (freshId : String)
    (e : CErr) (h : (dockerCreateRun penv opts).2 = Except.error e) :
    (routerCreateRun reg penv opts freshId).1 = reg ∧
    (routerCreateRun reg penv opts freshId).2.2 = Except.error e ∧
    Event.registerRun freshId ∉ (routerCreateRun reg penv opts freshId).2.1 ∧
    Event.rmTempDir ∉ (routerCreateRun reg penv opts freshId).2.1 := by
  have hreg : Event.registerRun freshId ∉ (dockerCreateRun penv opts).1 := by
    intro hmem
    have hshape := dockerCreateRun_trace_shape penv opts _ hmem
    unfold isProvisionEvent at hshape
    rcases hshape with
      h' | h' | h' | ⟨ref, h'⟩ | ⟨ref, h'⟩ | h' | h' | h' <;> simp at h'
  have hrm : Event.rmTempDir ∉ (dockerCreateRun penv opts).1 := by
    intro hmem
    have hshape := dockerCreateRun_trace_shape penv opts _ hmem
    unfold isProvisionEvent at hshape
    rcases hshape with
      h' | h' | h' | ⟨ref, h'⟩ | ⟨ref, h'⟩ | h' | h' | h' <;> simp at h'
  rcases hc : dockerCreateRun penv opts with ⟨evs, res⟩
  rw [hc] at h hreg hrm
  cases res with
  | ok r => simp at h
  | error e' =>
      simp only [Except.error.injEq] at h
      subst h
      refine ⟨?_, ?_, ?_, ?_⟩ <;> simp [routerCreateRun, hc]
      · exact fun hmem => hreg hmem
      · exact fun hmem => hrm hmem

/-- Witness for `createRun_failure_no_registration` at the concrete
failing-clone environment. -/
theorem createRun_failure_no_registration_witness :
    (routerCreateRun regRun1 penvCloneFail optsNode "r2").1 = regRun1 ∧
    (routerCreateRun regRun1 penvCloneFail optsNode "r2").2.2 =
      Except.error (CErr.external "git clone") ∧
    Event.registerRun "r2" ∉
      (routerCreateRun regRun1 penvCloneFail optsNode "r2").2.1 ∧
    Event.rmTempDir ∉
      (routerCreateRun regRun1 penvCloneFail optsNode "r2").2.1 :=
  createRun_failure_no_registration regRun1 penvCloneFail optsNode "r2"
    (CErr.external "git clone") rfl

/-! ## Claim C6 -/

/-- C6: when source materialization fails, provisioning aborts there:
the surfaced error is the materialization error and the attempted-call
trace holds no image inspection, no image pull and no container
creation — the temp-dir allocation and the git calls are all that
ran. -/
theorem source_failure_blocks_image_and_container (penv : ProvisionEnv)
    (opts : CreateRunOptions) (e : CErr)
    (h : (materializeSource penv.sourceEnv opts.source).2 = some e) :
    (dockerCreateRun penv opts).2 = Except.error e ∧
    (dockerCreateRun penv opts).1 =
      Event.mkTempDir :: (materializeSource penv.sourceEnv opts.source).1 ∧
    (∀ ref, Event.imageInspect ref ∉ (dockerCreateRun penv opts).1) ∧
    (∀ ref, Event.imagePull ref ∉ (dockerCreateRun penv opts).1) ∧
    Event.containerCreate ∉ (dockerCreateRun penv opts).1 := by
  rcases hm : materializeSource penv.sourceEnv opts.source with ⟨evs1, err1⟩
  rw [hm] at h
  simp only at h
  subst h
  have hm' : cloneGit penv.sourceEnv opts.source = (evs1, some e) := hm
  have h1 := cloneGit_trace penv.sourceEnv opts.source
  rw [hm'] at h1
  have htr : (dockerCreateRun penv opts).1 = Event.mkTempDir :: evs1 := by
    simp [dockerCreateRun, hm]
  have hnot : ∀ ev2 ∈ evs1, ev2 = Event.cloneRepo ∨ ev2 = Event.checkoutRef :=
    fun _ hh => mem_source_trace h1 hh
  refine ⟨?_, ?_, ?_, ?_, ?_⟩
  · simp [dockerCreateRun, hm]
  · simp [htr, hm]
  · intro ref hmem
    rw [htr] at hmem
    rcases List.mem_cons.mp hmem with hc | hc
    · simp at hc
    · rcases hnot _ hc with hc | hc <;> simp at hc
  · intro ref hmem
    rw [htr] at hmem
    rcases List.mem_cons.mp hmem with hc | hc
    · simp at hc
    · rcases hnot _ hc with hc | hc <;> simp at hc
  · intro hmem
    rw [htr] at hmem
    rcases List.mem_cons.mp hmem with hc | hc
    · simp at hc
    · rcases hnot _ hc with hc | hc <;> simp at hc

/-- Witness for `source_failure_blocks_image_and_container` at the
concrete failing-clone environment. -/
theorem source_failure_blocks_image_and_container_witness :
    (dockerCreateRun penvCloneFail optsNode).2 =
      Except.error (CErr.external "git clone") ∧
    (dockerCreateRun penvCloneFail optsNode).1 =
      Event.mkTempDir ::
        (materializeSource penvCloneFail.sourceEnv optsNode.source).1 ∧
    (∀ ref, Event.imageInspect ref ∉ (dockerCreateRun penvCloneFail optsNode).1) ∧
    (∀ ref, Event.imagePull ref ∉ (dockerCreateRun penvCloneFail optsNode).1) ∧
    Event.containerCreate ∉ (dockerCreateRun penvCloneFail optsNode).1 :=
  source_failure_blocks_image_and_container penvCloneFail optsNode
    (CErr.external "git clone") rfl

/-! ## Claim C4 -/

/-- C4 counterexample: the containerd backend does not satisfy the
published-port property.  A creation request with `ports:[3000]` in a
fully successful environment whose inspection even reports a host
binding for 3000 still produces an empty `portMap`
(`ContainerdAdapter.getPortMappings` ignores the inspection), so
`publicUrl(3000)` on the resulting sandbox fails instead of returning a
URL — the claim fails for the containerd backend. -/
theorem containerd_portmap_empty :
    (containerdCreateRun penvOk optsNode).2 =
      Except.ok { tmpDir := "/tmp/runws-abc123", portMap := [] } ∧
    Run.publicUrl
      { tmpDir := "/tmp/runws-abc123", portMap := [], cleaned := false } 3000 =
      Except.error (CErr.portNotPublished 3000) := by
  constructor <;> rfl

/-- C4 (amended): for the Docker backend the property holds — when every
provisioning step succeeds and the engine's post-start inspection
reports a binding for container port `p` whose key parses to `p` and
whose first `HostPort` string parses to a nonzero `hp`, the created
sandbox's `portMap` maps `p` to `hp` and `publicUrl(p)` returns
`http://localhost:<hp>`.  The containerd backend does not conform: its
port-map extraction always yields the empty map. -/
theorem docker_published_port_url (penv : ProvisionEnv)
    (opts : CreateRunOptions) (p hp : Nat) (k v : String)
    (hclone : penv.sourceEnv.cloneFails = false)
    (hco : penv.sourceEnv.checkoutFails = false)
    (hpull : penv.imageEnv.pullFails = false)
    (hcreate : penv.createFails = false)
    (hstart : penv.startFails = false)
    (hrt : strStartsWith opts.runtime "node" = true)
    (hinsp : penv.inspectPorts = [(k, [v])])
    (hk : parsePort (portKeyPrefix k) = some p)
    (hv : parsePort v = some hp)
    (hvne : v ≠ "")
    (hp0 : hp ≠ 0) :
    ∃ res, (dockerCreateRun penv opts).2 = Except.ok res ∧
      lookupPort res.portMap p = some hp ∧
      Run.publicUrl
        { tmpDir := res.tmpDir, portMap := res.portMap, cleaned := false } p =
        Except.ok ("http://localhost:" ++ toString hp) := by
  have hmat : (materializeSource penv.sourceEnv opts.source).2 = none := by
    unfold materializeSource cloneGit
    rcases opts.source.ref with _ | r <;> simp [hclone, hco]
  have himg : ∃ evs2, ensureImage penv.imageEnv opts.runtime =
      (evs2, Except.ok ("node:" ++ opts.runtime.drop 4 ++ "-slim")) := by
    unfold ensureImage pullIfMissing
    by_cases hip : penv.imageEnv.imagePresent <;> simp [hrt, hip, hpull]
  have hmap : getPortMappings penv.inspectPorts = [(p, hp)] := by
    rw [hinsp]
    simp [getPortMappings, hk, hv, hvne, setPort, hp0]
  rcases himg with ⟨evs2, hi⟩
  rcases hm : materializeSource penv.sourceEnv opts.source with ⟨evs1, err1⟩
  rw [hm] at hmat
  simp only at hmat
  subst hmat
  refine ⟨{ tmpDir := penv.tmpDirPath, portMap := [(p, hp)] }, ?_, ?_, ?_⟩
  · simp [dockerCreateRun, hm, hi, hcreate, hstart, hmap]
  · simp [lookupPort]
  · simp [Run.publicUrl, lookupPort, hp0]

/-- Witness for `docker_published_port_url` at the concrete request
`ports:[3000]` with inspection `3000/tcp → 49153`. -/
theorem docker_published_port_url_witness :
    ∃ res, (dockerCreateRun penvOk optsNode).2 = Except.ok res ∧
      lookupPort res.portMap 3000 = some 49153 ∧
      Run.publicUrl
        { tmpDir := res.tmpDir, portMap := res.portMap, cleaned := false } 3000 =
        Except.ok ("http://localhost:" ++ toString 49153) :=
  docker_published_port_url penvOk optsNode 3000 49153 "3000/tcp" "49153"
    rfl rfl rfl rfl rfl (by decide) rfl (by decide) (by decide) (by decide)
    (by decide)

/-! ## Claim C10 -/

/-- C10 counterexample: the containerd `ensureImage` does not return
`node:<suffix>-slim` — it returns the fully qualified reference, so the
claimed return value is wrong for that implementation. -/
theorem containerd_image_ref_qualified :
    (containerdEnsureImage ienvPresent "node22").2 =
      Except.ok "docker.io/library/node:22-slim" ∧
    "docker.io/library/node:22-slim" ≠ "node:22-slim" := by
  constructor
  · rfl
  · decide

/-- C10 (amended): the runtime acceptance boundary is exactly the
`startsWith("node")` check in all implementations — any runtime string
with that prefix is accepted, whatever follows (there is no tag
whitelist), and the `node` prefix is stripped to form the tag; modulo a
successful pull, the Docker adapter and the utils helper return
`node:<suffix>-slim`, while the containerd adapter returns
`docker.io/library/node:<suffix>-slim`; every other runtime string is
rejected with the unsupported-runtime error. -/
theorem runtime_boundary_prefix_check (ienv : ImageEnv) (runtime : String)
    (hpull : ienv.pullFails = false) :
    (strStartsWith runtime "node" = true →
      (ensureImage ienv runtime).2 =
        Except.ok ("node:" ++ runtime.drop 4 ++ "-slim") ∧
      (containerdEnsureImage ienv runtime).2 =
        Except.ok ("docker.io/library/node:" ++ runtime.drop 4 ++ "-slim")) ∧
    (strStartsWith runtime "node" = false →
      (ensureImage ienv runtime).2 =
        Except.error (CErr.unsupportedRuntime runtime) ∧
      (containerdEnsureImage ienv runtime).2 =
        Except.error (CErr.unsupportedRuntime runtime)) := by
  refine ⟨fun hrt => ⟨?_, ?_⟩, fun hrt => ⟨?_, ?_⟩⟩ <;>
    by_cases hip : ienv.imagePresent <;>
      simp [ensureImage, containerdEnsureImage, pullIfMissing, hrt, hip, hpull]

/-- Witness for `runtime_boundary_prefix_check` at the made-up tag
`nodeanything`, which names no real Node version yet is accepted. -/
theorem runtime_boundary_prefix_check_witness :
    (strStartsWith "nodeanything" "node" = true →
      (ensureImage ienvPresent "nodeanything").2 =
        Except.ok ("node:" ++ "nodeanything".drop 4 ++ "-slim") ∧
      (containerdEnsureImage ienvPresent "nodeanything").2 =
        Except.ok ("docker.io/library/node:" ++ "nodeanything".drop 4 ++ "-slim")) ∧
    (strStartsWith "nodeanything" "node" = false →
      (ensureImage ienvPresent "nodeanything").2 =
        Except.error (CErr.unsupportedRuntime "nodeanything") ∧
      (containerdEnsureImage ienvPresent "nodeanything").2 =
        Except.error (CErr.unsupportedRuntime "nodeanything")) :=
  runtime_boundary_prefix_check ienvPresent "nodeanything" rfl

end Compute
